import Mathlib

/-!
# Verification of the Gen-Aistro retrieval core

Shallow embedding of the retrieval/re-ranking core of the Gen-Aistro
repository (the `/api/search` route): corpus cache (`loadPapers`),
filter engine (`applyFilters`), MMR ranker (`mmrDiversification`),
input validation (`validateInput`) and the orchestrating endpoint
(`POST`).  JavaScript numbers are embedded as exact rationals `ℚ`
(years and timestamps as `ℤ`), absent JSON fields as `Option`, thrown
errors as error results carrying the thrown message.

The cosine-similarity utility (`utils/cosine`) is imported by the route
but its source is not part of the given sources, so all ranking
definitions are parametric in the similarity function `sim`, exactly as
the route treats the import; a spec-modelled instance is provided below
for concrete evaluations.
-/

namespace GenAistro

/-- A corpus chunk record, as stored in `papers.json` (§3 of the design):
`doc_id`, `doc_title`, optional `year`, optional `url`, `chunk_id`,
`text` and an `embedding` vector. -/
structure Paper where
  doc_id : String
  doc_title : String
  year : Option ℤ
  url : Option String
  chunk_id : String
  text : String
  embedding : List ℚ
deriving DecidableEq, Inhabited

/-- A scored candidate: the object built in `POST`'s `similarities.map`,
carrying all chunk fields, the embedding, and the query-similarity
`score`. -/
structure Scored where
  doc_id : String
  doc_title : String
  year : Option ℤ
  url : Option String
  chunk_id : String
  text : String
  embedding : List ℚ
  score : ℚ
deriving DecidableEq, Inhabited

/-- A result record returned to the caller: a scored candidate with the
`embedding` field stripped (`({ embedding, ...rest }) => rest`). -/
structure ResultRecord where
  doc_id : String
  doc_title : String
  year : Option ℤ
  url : Option String
  chunk_id : String
  text : String
  score : ℚ
deriving DecidableEq, Inhabited

/-- The `filter.year` block: independently optional `min` and `max`. -/
structure YearRange where
  min : Option ℤ
  max : Option ℤ
deriving DecidableEq, Inhabited

/-- The `filter.keywords` block.  The source field `include` is a Lean
keyword, so it is rendered `include'`; `exclude` keeps its name. -/
structure KeywordFilter where
  include' : Option (List String)
  exclude : Option (List String)
deriving DecidableEq, Inhabited

/-- The optional request `filter` object with its three optional
sub-filters. -/
structure Filter where
  year : Option YearRange
  keywords : Option KeywordFilter
  doc_ids : Option (List String)
deriving DecidableEq, Inhabited

/-- The parsed request body `{ queryEmbedding, topK = 5, filter }`.
`queryEmbedding = none` models an absent / non-array value (the
`!queryEmbedding || !Array.isArray(queryEmbedding)` branch); `topK` is a
JavaScript number, embedded as `ℚ` (it need not be an integer), `none`
modelling the absent field that the destructuring defaults to `5`. -/
structure Request where
  queryEmbedding : Option (List ℚ)
  topK : Option ℚ
  filter : Option Filter
deriving DecidableEq, Inhabited

/-- The `metadata` object of a response.  Each field is `none` when the
corresponding key is absent from the JSON object built by the route
(the three response shapes attach different key sets). -/
structure Metadata where
  total_chunks : Option ℕ := none
  filtered_chunks : Option ℕ := none
  returned_chunks : Option ℕ := none
  filter_applied : Option Bool := none
  mmr_diversification : Option Bool := none
  error : Option Bool := none
deriving DecidableEq, Inhabited

/-- A route response: HTTP status, optional `error` message, `results`,
and `metadata`. -/
structure Response where
  status : ℕ
  error : Option String := none
  results : List ResultRecord
  metadata : Metadata
deriving DecidableEq, Inhabited

/-! ## Spec-modelled similarity -/

/-- Modelled from the spec: the cosine-similarity utility
(`utils/cosine`) is imported by the route but absent from the sources.
The spec (§4.1) defines it as the dot product divided by the product of
the Euclidean norms, with value `0` when either vector has zero norm.
This instance specialises it to dimension-1 vectors `[x]`, `[y]`, where
the Euclidean norm is the absolute value, so the spec's
`dot/(‖a‖·‖b‖) = x*y/(|x|*|y|)` is exactly rational; vectors of any
other shape are outside the equal-length contract and mapped to `0`. -/
def cosineSimilarity1 (a b : List ℚ) : ℚ :=
  match a, b with
  | [x], [y] => if x = 0 ∨ y = 0 then 0 else x * y / (|x| * |y|)
  | _, _ => 0

/-! ## Filter engine (`applyFilters`) -/

/-- JavaScript truthiness of the `p.year` guard in
`p.year && p.year >= filter.year.min`: an absent year (`undefined`) and
the number `0` are falsy. -/
def yearTruthy : Option ℤ → Bool
  | none => false
  | some y => y ≠ 0

/-- `s.includes(t)`: `t` occurs as a contiguous substring of `s`. -/
def strIncludes (s t : String) : Bool :=
  decide (t.toList <:+: s.toList)

/-- One keyword term matches a paper when it occurs (case-folded) in the
paper's `text` or `doc_title` (the term itself is already lowered by the
caller, mirroring `includeTerms`/`excludeTerms`). -/
def termMatches (p : Paper) (term : String) : Bool :=
  strIncludes p.text.toLower term || strIncludes p.doc_title.toLower term

/-- `if (filter.year.min !== undefined)`: narrow by
`p.year && p.year >= filter.year.min`. -/
def yearMinStage (papers : List Paper) (mn? : Option ℤ) : List Paper :=
  match mn? with
  | none => papers
  | some mn => papers.filter fun p => yearTruthy p.year && decide (mn ≤ p.year.getD 0)

/-- `if (filter.year.max !== undefined)`: narrow by
`p.year && p.year <= filter.year.max`. -/
def yearMaxStage (l : List Paper) (mx? : Option ℤ) : List Paper :=
  match mx? with
  | none => l
  | some mx => l.filter fun p => yearTruthy p.year && decide (p.year.getD 0 ≤ mx)

/-- The year-range block of `applyFilters`: min bound then max bound,
in source order. -/
def yearStage (papers : List Paper) (yearFilter : Option YearRange) : List Paper :=
  match yearFilter with
  | none => papers
  | some yr => yearMaxStage (yearMinStage papers yr.min) yr.max

/-- The keyword include block: a present non-empty list keeps records
matching at least one lowered term. -/
def includeStage (l : List Paper) (inc? : Option (List String)) : List Paper :=
  match inc? with
  | none => l
  | some inc =>
    if inc.length > 0 then
      l.filter fun p => (inc.map String.toLower).any (termMatches p)
    else l

/-- The keyword exclude block: a present non-empty list drops records
matching any lowered term. -/
def excludeStage (l : List Paper) (exc? : Option (List String)) : List Paper :=
  match exc? with
  | none => l
  | some exc =>
    if exc.length > 0 then
      l.filter fun p => !(exc.map String.toLower).any (termMatches p)
    else l

/-- The keyword block of `applyFilters`: include list then exclude
list, in source order; matching is case-folded substring over `text`
and `doc_title`. -/
def keywordStage (l : List Paper) (kw? : Option KeywordFilter) : List Paper :=
  match kw? with
  | none => l
  | some kw => excludeStage (includeStage l kw.include') kw.exclude

/-- The `doc_ids` block of `applyFilters`: a present non-empty id list
keeps exactly the records whose `doc_id` is a member. -/
def docIdsStage (l : List Paper) (ids? : Option (List String)) : List Paper :=
  match ids? with
  | none => l
  | some ids =>
    if ids.length > 0 then l.filter fun p => ids.contains p.doc_id else l

/-- The filter engine `applyFilters(papers, filter)`: `!filter` returns
the corpus unchanged, otherwise the three blocks successively narrow
`filtered` in source order (year range, keywords, doc ids); absent
blocks (and present-but-empty keyword / id lists) impose no
constraint. -/
def applyFilters (papers : List Paper) (filter : Option Filter) : List Paper :=
  match filter with
  | none => papers
  | some f => docIdsStage (keywordStage (yearStage papers f.year) f.keywords) f.doc_ids

/-! ## Corpus accessor (`loadPapers`) -/

/-- `CACHE_DURATION = 5 * 60 * 1000` milliseconds. -/
def CACHE_DURATION : ℤ := 5 * 60 * 1000

/-- The module-level mutable cache of the route:
`papersCache` (initially `null`) and `cacheTimestamp` (initially
`null`). -/
structure CacheState where
  papersCache : Option (List Paper)
  cacheTimestamp : Option ℤ
deriving DecidableEq, Inhabited

/-- Truthiness of `cacheTimestamp`: `null` and the number `0` are
falsy.  (A JavaScript array such as `papersCache` is always truthy when
non-null.) -/
def tsTruthy : Option ℤ → Bool
  | none => false
  | some t => t ≠ 0

/-- The cache-hit guard
`papersCache && cacheTimestamp && (now - cacheTimestamp) < CACHE_DURATION`. -/
def cacheFresh (st : CacheState) (now : ℤ) : Bool :=
  st.papersCache.isSome && tsTruthy st.cacheTimestamp &&
    decide (now - st.cacheTimestamp.getD 0 < CACHE_DURATION)

/-- `loadPapers()`, as a pure function of the cache state, the clock
value `now = Date.now()` and the outcome `store` of reading and parsing
the backing file.  Returns the produced collection (or the thrown
message `'Failed to load papers data'`) together with the new cache
state. -/
def loadPapers (st : CacheState) (now : ℤ) (store : Except String (List Paper)) :
    Except String (List Paper) × CacheState :=
  if cacheFresh st now then
    (Except.ok (st.papersCache.getD []), st)
  else
    match store with
    | Except.ok data => (Except.ok data, ⟨some data, some now⟩)
    | Except.error _ => (Except.error "Failed to load papers data", st)

/-! ## Ranker/diversifier (`mmrDiversification`) -/

/-- The inner loop's running maximum
`maxSimilarity = 0; for (selectedItem of selected) maxSimilarity = max(maxSimilarity, sim(c.embedding, selectedItem.embedding))`.
Note the accumulator starts at `0`, so the result is clamped below by
`0` even when every pairwise similarity is negative. -/
def maxSimToSelected (sim : List ℚ → List ℚ → ℚ) (selected : List Scored) (c : Scored) : ℚ :=
  selected.foldl (fun m s => max m (sim c.embedding s.embedding)) 0

/-- The MMR objective computed by the code for a remaining candidate `c`:
`lambda * c.score - (1 - lambda) * maxSimilarity`, with the clamped
`maxSimilarity` above. -/
def mmrScore (sim : List ℚ → List ℚ → ℚ) (lambda : ℚ) (selected : List Scored) (c : Scored) : ℚ :=
  lambda * c.score - (1 - lambda) * maxSimToSelected sim selected c

/-- The quantity the spec's formula names `max_similarity_to_any_selected`:
the maximum pairwise similarity between the candidate and every
already-selected item (`0` if the selected set is empty), with no
clamping at `0`. -/
def specMaxSim (sim : List ℚ → List ℚ → ℚ) (selected : List Scored) (c : Scored) : ℚ :=
  ((selected.map fun s => sim c.embedding s.embedding).max?).getD 0

/-- The spec's `mmr_score = λ * relevance − (1 − λ) * max_similarity_to_any_selected`. -/
def specMmrScore (sim : List ℚ → List ℚ → ℚ) (lambda : ℚ) (selected : List Scored) (c : Scored) : ℚ :=
  lambda * c.score - (1 - lambda) * specMaxSim sim selected c

/-- Index of the first occurrence of the maximum of a list of scores
(`0` for lists of length ≤ 1).  This is what the scan
`bestScore = -Infinity; if (mmrScore > bestScore) { bestScore = mmrScore; bestIdx = i }`
computes: strict improvement keeps the earliest index attaining the
overall maximum. -/
def firstMaxIdx : List ℚ → ℕ
  | [] => 0
  | x :: xs =>
    match xs with
    | [] => 0
    | _ :: _ =>
      let j := firstMaxIdx xs
      if x < xs.getD j 0 then j + 1 else 0

/-- `bestIdx` for one MMR iteration: the first index of `remaining`
maximising the code's MMR objective against `selected`. -/
def bestIndex (sim : List ℚ → List ℚ → ℚ) (lambda : ℚ)
    (selected remaining : List Scored) : ℕ :=
  firstMaxIdx (remaining.map (mmrScore sim lambda selected))

/-- The `while (selected.length < maxResults && remaining.length > 0)`
loop.  Each iteration splices exactly one element out of `remaining`,
so the loop runs at most `remaining.length` times; `fuel` is
instantiated with `remaining.length` by `mmrDiversification`, making
this structural recursion equivalent to the source's while loop.
`maxResults` is a JavaScript number (`ℚ`): the length comparison is
performed in `ℚ`, as in the source. -/
def mmrLoop (sim : List ℚ → List ℚ → ℚ) (lambda maxResults : ℚ) :
    ℕ → List Scored → List Scored → List Scored
  | 0, selected, _ => selected
  | fuel + 1, selected, remaining =>
    if (selected.length : ℚ) < maxResults ∧ remaining ≠ [] then
      let idx := bestIndex sim lambda selected remaining
      mmrLoop sim lambda maxResults fuel (selected ++ [remaining.getD idx default])
        (remaining.eraseIdx idx)
    else selected

/-- `mmrDiversification(results, queryEmbedding, lambda, maxResults)`.
The `queryEmbedding` parameter is accepted but unused, as in the
source: relevance is the precomputed `score`.  When
`results.length <= maxResults` the input is returned unchanged;
otherwise the highest-scoring head is selected first
(`selected.push(remaining.shift())`) and the loop fills the remaining
slots. -/
def mmrDiversification (sim : List ℚ → List ℚ → ℚ) (results : List Scored)
    (queryEmbedding : List ℚ) (lambda maxResults : ℚ) : List Scored :=
  if (results.length : ℚ) ≤ maxResults then results
  else
    match results with
    | [] => []
    | r :: rest => mmrLoop sim lambda maxResults rest.length [r] rest

/-- The stable descending sort `similarities.sort((a, b) => b.score - a.score)`.
`Array.prototype.sort` is specified stable, and the output of a stable
sort under a total preorder is unique, so it is modelled by insertion
sort with the descending relation, which computes exactly that
output. -/
def sortByScoreDesc (l : List Scored) : List Scored :=
  l.insertionSort fun a b => b.score ≤ a.score

/-- The similarity object built for each filtered paper in `POST`. -/
def toScored (sim : List ℚ → List ℚ → ℚ) (queryEmbedding : List ℚ) (p : Paper) : Scored :=
  { doc_id := p.doc_id, doc_title := p.doc_title, year := p.year, url := p.url,
    chunk_id := p.chunk_id, text := p.text, embedding := p.embedding,
    score := sim queryEmbedding p.embedding }

/-- The scoring-and-ranking section of `POST`: score every filtered
paper, sort descending by score, then apply MMR diversification with
`λ = 0.3` and `maxResults = topK`. -/
def scoreAndRank (sim : List ℚ → List ℚ → ℚ) (queryEmbedding : List ℚ)
    (filteredPapers : List Paper) (topK : ℚ) : List Scored :=
  mmrDiversification sim (sortByScoreDesc (filteredPapers.map (toScored sim queryEmbedding)))
    queryEmbedding (3/10) topK

/-- `({ embedding, ...rest }) => rest`: drop the embedding, keep every
other field. -/
def stripEmbedding (c : Scored) : ResultRecord :=
  { doc_id := c.doc_id, doc_title := c.doc_title, year := c.year, url := c.url,
    chunk_id := c.chunk_id, text := c.text, score := c.score }

/-! ## Input validation (`validateInput`) -/

/-- `validateInput(queryEmbedding, topK, filter)`: returns the thrown
message, or `none` when validation passes.  The `topK` guard mirrors
`if (topK && (typeof topK !== 'number' || topK < 1 || topK > 10))`:
`topK = 0` is falsy and skips the check, and `topK` is always a number
in this embedding.  The year-range guard mirrors
`filter.year.min < 1950 || filter.year.max > 2030`, where a comparison
against an absent bound is false. -/
def validateInput (queryEmbedding : Option (List ℚ)) (topK : ℚ) (filter : Option Filter) :
    Option String :=
  match queryEmbedding with
  | none => some "Invalid query embedding: must be an array"
  | some emb =>
    if emb.length ≠ 384 then
      some ("Invalid embedding dimension: expected 384, got " ++ toString emb.length)
    else if topK ≠ 0 ∧ (topK < 1 ∨ 10 < topK) then
      some "Invalid topK: must be a number between 1 and 10"
    else
      match filter with
      | none => none
      | some f =>
        match f.year with
        | none => none
        | some yr =>
          if (match yr.min with | some mn => decide (mn < 1950) | none => false) ||
             (match yr.max with | some mx => decide (2030 < mx) | none => false) then
            some "Invalid year range: must be between 1950 and 2030"
          else none

/-! ## The endpoint (`POST`) -/

/-- The status chosen by the catch block:
`error.message.includes('Invalid') ? 400 : 500`. -/
def statusFor (msg : String) : ℕ :=
  if strIncludes msg "Invalid" then 400 else 500

/-- The catch-block response:
`{ error, results: [], metadata: { error: true } }` with the status
above. -/
def errorResponse (msg : String) : Response :=
  { status := statusFor msg, error := some msg, results := [],
    metadata := { error := some true } }

/-- The `POST` handler, as a pure function of the parsed request body,
the module cache state, the clock, and the backing-store read outcome
(the latter three feed `loadPapers`); `sim` is the imported
`cosineSimilarity`.  Mirrors the source: validate (throwing messages
become `errorResponse`), load the corpus, filter, return the
empty-filtered-set response when nothing survives, otherwise score,
sort, diversify, strip embeddings and attach full metadata. -/
def POST (sim : List ℚ → List ℚ → ℚ) (req : Request) (st : CacheState) (now : ℤ)
    (store : Except String (List Paper)) : Response :=
  let topK := req.topK.getD 5
  match validateInput req.queryEmbedding topK req.filter with
  | some msg => errorResponse msg
  | none =>
    match (loadPapers st now store).1 with
    | Except.error msg => errorResponse msg
    | Except.ok papers =>
      let filteredPapers := applyFilters papers req.filter
      if filteredPapers.length = 0 then
        { status := 200, error := none, results := [],
          metadata := { total_chunks := some papers.length, filtered_chunks := some 0,
                        filter_applied := some req.filter.isSome } }
      else
        let diversifiedResults :=
          scoreAndRank sim (req.queryEmbedding.getD []) filteredPapers topK
        let results := diversifiedResults.map stripEmbedding
        { status := 200, error := none, results := results,
          metadata := { total_chunks := some papers.length,
                        filtered_chunks := some filteredPapers.length,
                        returned_chunks := some results.length,
                        filter_applied := some req.filter.isSome,
                        mmr_diversification := some true } }

/-! ## Properties of `firstMaxIdx` -/

theorem firstMaxIdx_cons_cons (x y : ℚ) (ys : List ℚ) :
    firstMaxIdx (x :: y :: ys) =
      if x < (y :: ys).getD (firstMaxIdx (y :: ys)) 0 then firstMaxIdx (y :: ys) + 1 else 0 :=
  rfl

theorem firstMaxIdx_lt_length : ∀ (l : List ℚ), l ≠ [] → firstMaxIdx l < l.length
  | [], h => absurd rfl h
  | [_], _ => by simp [firstMaxIdx]
  | x :: y :: ys, _ => by
    have ih := firstMaxIdx_lt_length (y :: ys) (by simp)
    rw [firstMaxIdx_cons_cons]
    by_cases hx : x < (y :: ys).getD (firstMaxIdx (y :: ys)) 0
    · rw [if_pos hx]
      simpa using Nat.succ_lt_succ ih
    · rw [if_neg hx]
      simp

theorem getD_le_firstMaxIdx :
    ∀ (l : List ℚ) (j : ℕ), j < l.length → l.getD j 0 ≤ l.getD (firstMaxIdx l) 0
  | [], j, hj => absurd hj (by simp)
  | [x], j, hj => by
    have hj0 : j = 0 := by simpa using Nat.lt_one_iff.mp (by simpa using hj)
    subst hj0
    simp [firstMaxIdx]
  | x :: y :: ys, j, hj => by
    have ih := fun (k : ℕ) (hk : k < (y :: ys).length) => getD_le_firstMaxIdx (y :: ys) k hk
    rw [firstMaxIdx_cons_cons]
    by_cases hx : x < (y :: ys).getD (firstMaxIdx (y :: ys)) 0
    · rw [if_pos hx, List.getD_cons_succ]
      match j with
      | 0 =>
        rw [List.getD_cons_zero]
        exact le_of_lt hx
      | k + 1 =>
        rw [List.getD_cons_succ]
        exact ih k (by simpa using hj)
    · rw [if_neg hx, List.getD_cons_zero]
      match j with
      | 0 =>
        rw [List.getD_cons_zero]
      | k + 1 =>
        rw [List.getD_cons_succ]
        exact le_trans (ih k (by simpa using hj)) (le_of_not_lt hx)

theorem getD_lt_of_lt_firstMaxIdx :
    ∀ (l : List ℚ) (j : ℕ), j < firstMaxIdx l → l.getD j 0 < l.getD (firstMaxIdx l) 0
  | [], j, hj => absurd hj (by simp [firstMaxIdx])
  | [x], j, hj => absurd hj (by simp [firstMaxIdx])
  | x :: y :: ys, j, hj => by
    have ih := fun (k : ℕ) (hk : k < firstMaxIdx (y :: ys)) => getD_lt_of_lt_firstMaxIdx (y :: ys) k hk
    rw [firstMaxIdx_cons_cons] at hj ⊢
    by_cases hx : x < (y :: ys).getD (firstMaxIdx (y :: ys)) 0
    · rw [if_pos hx] at hj ⊢
      rw [List.getD_cons_succ]
      match j with
      | 0 =>
        rw [List.getD_cons_zero]
        exact hx
      | k + 1 =>
        rw [List.getD_cons_succ]
        exact ih k (Nat.lt_of_succ_lt_succ hj)
    · rw [if_neg hx] at hj
      exact absurd hj (Nat.not_lt_zero j)

/-! ## The greedy-MMR characterisation -/

/-- Declarative description of a greedy MMR run, phrased from the
claim's words (with the code's clamped similarity term): from the state
(selected, remaining), the run stops once `K` items are selected or no
candidate remains; otherwise it removes the candidate `c` maximising
the MMR objective against the current selected set — with every
earlier-encountered candidate (`l₁`) scoring strictly below `c`, i.e.
ties break in favour of the first candidate encountered — appends it to
the selected set, and continues.  `MMRRun sel rem out` states that
`out` is a possible (hence, the unique) outcome from `(sel, rem)`. -/
inductive MMRRun (sim : List ℚ → List ℚ → ℚ) (lam : ℚ) (K : ℕ) :
    List Scored → List Scored → List Scored → Prop
  | done (selected remaining : List Scored) :
      K ≤ selected.length ∨ remaining = [] →
      MMRRun sim lam K selected remaining selected
  | step (selected l₁ l₂ : List Scored) (c : Scored) (out : List Scored) :
      selected.length < K →
      (∀ y ∈ l₁, mmrScore sim lam selected y < mmrScore sim lam selected c) →
      (∀ y ∈ l₂, mmrScore sim lam selected y ≤ mmrScore sim lam selected c) →
      MMRRun sim lam K (selected ++ [c]) (l₁ ++ l₂) out →
      MMRRun sim lam K selected (l₁ ++ c :: l₂) out

theorem bestIndex_lt_length (sim : List ℚ → List ℚ → ℚ) (lam : ℚ)
    (selected remaining : List Scored) (h : remaining ≠ []) :
    bestIndex sim lam selected remaining < remaining.length := by
  have hne : remaining.map (mmrScore sim lam selected) ≠ [] := by simpa using h
  have := firstMaxIdx_lt_length _ hne
  simpa [bestIndex] using this

theorem mmrLoop_length (sim : List ℚ → List ℚ → ℚ) (lam : ℚ) (K : ℕ) :
    ∀ (fuel : ℕ) (selected remaining : List Scored), remaining.length ≤ fuel →
      (mmrLoop sim lam (K : ℚ) fuel selected remaining).length
        = max selected.length (min K (selected.length + remaining.length)) := by
  intro fuel
  induction fuel with
  | zero =>
    intro selected remaining hle
    have hrem : remaining = [] := List.eq_nil_of_length_eq_zero (Nat.le_zero.mp hle)
    subst hrem
    simp only [mmrLoop, List.length_nil, Nat.add_zero]
    omega
  | succ fuel ih =>
    intro selected remaining hle
    by_cases hcond : ((selected.length : ℚ) < (K : ℚ) ∧ remaining ≠ [])
    · obtain ⟨hlt, hne⟩ := hcond
      have hltN : selected.length < K := by exact_mod_cast hlt
      have hidx : bestIndex sim lam selected remaining < remaining.length :=
        bestIndex_lt_length sim lam selected remaining hne
      have herase :
          (remaining.eraseIdx (bestIndex sim lam selected remaining)).length + 1
            = remaining.length :=
        List.length_eraseIdx_add_one hidx
      have hfuel : (remaining.eraseIdx (bestIndex sim lam selected remaining)).length ≤ fuel := by
        omega
      rw [mmrLoop, if_pos ⟨hlt, hne⟩, ih _ _ hfuel]
      simp only [List.length_append, List.length_cons, List.length_nil]
      omega
    · rw [mmrLoop, if_neg hcond]
      rcases not_and_or.mp hcond with h | h
      · have hK : K ≤ selected.length := by
          have := le_of_not_lt h
          exact_mod_cast this
        omega
      · have hrem : remaining = [] := not_not.mp h
        subst hrem
        simp only [List.length_nil, Nat.add_zero]
        omega

theorem mmrLoop_run (sim : List ℚ → List ℚ → ℚ) (lam : ℚ) (K : ℕ) :
    ∀ (fuel : ℕ) (selected remaining : List Scored), remaining.length ≤ fuel →
      MMRRun sim lam K selected remaining (mmrLoop sim lam (K : ℚ) fuel selected remaining) := by
  intro fuel
  induction fuel with
  | zero =>
    intro sel rem hle
    have hrem : rem = [] := List.eq_nil_of_length_eq_zero (Nat.le_zero.mp hle)
    subst hrem
    exact MMRRun.done sel [] (Or.inr rfl)
  | succ fuel ih =>
    intro sel rem hle
    by_cases hcond : ((sel.length : ℚ) < (K : ℚ) ∧ rem ≠ [])
    · obtain ⟨hlt, hne⟩ := hcond
      have hltN : sel.length < K := by exact_mod_cast hlt
      have hidx : bestIndex sim lam sel rem < rem.length :=
        bestIndex_lt_length sim lam sel rem hne
      have hscoreslen : bestIndex sim lam sel rem < (rem.map (mmrScore sim lam sel)).length := by
        simpa using hidx
      have hgetD : rem.getD (bestIndex sim lam sel rem) default = rem[bestIndex sim lam sel rem] :=
        List.getD_eq_getElem _ _ hidx
      have hval :
          (rem.map (mmrScore sim lam sel)).getD (bestIndex sim lam sel rem) 0
            = mmrScore sim lam sel rem[bestIndex sim lam sel rem] := by
        rw [List.getD_eq_getElem _ _ hscoreslen, List.getElem_map]
      have hstrict : ∀ y ∈ rem.take (bestIndex sim lam sel rem),
          mmrScore sim lam sel y < mmrScore sim lam sel rem[bestIndex sim lam sel rem] := by
        intro y hy
        obtain ⟨j, hj, rfl⟩ := List.mem_take_iff_getElem.mp hy
        have hjidx : j < bestIndex sim lam sel rem := lt_of_lt_of_le hj (Nat.min_le_left _ _)
        have hjlen : j < rem.length := lt_of_lt_of_le hj (Nat.min_le_right _ _)
        have hj' : (rem.map (mmrScore sim lam sel)).getD j 0 = mmrScore sim lam sel rem[j] := by
          rw [List.getD_eq_getElem _ _ (by simpa using hjlen), List.getElem_map]
        have hbi : firstMaxIdx (rem.map (mmrScore sim lam sel)) = bestIndex sim lam sel rem := rfl
        have := getD_lt_of_lt_firstMaxIdx (rem.map (mmrScore sim lam sel)) j hjidx
        rw [hbi] at this
        rwa [hj', hval] at this
      have hmax : ∀ y ∈ rem.drop (bestIndex sim lam sel rem + 1),
          mmrScore sim lam sel y ≤ mmrScore sim lam sel rem[bestIndex sim lam sel rem] := by
        intro y hy
        obtain ⟨j, hj, rfl⟩ := List.mem_drop_iff_getElem.mp hy
        have hjlen : bestIndex sim lam sel rem + 1 + j < rem.length := by omega
        have hj' : (rem.map (mmrScore sim lam sel)).getD (bestIndex sim lam sel rem + 1 + j) 0
            = mmrScore sim lam sel rem[bestIndex sim lam sel rem + 1 + j] := by
          rw [List.getD_eq_getElem _ _ (by simpa using hjlen), List.getElem_map]
        have hbi : firstMaxIdx (rem.map (mmrScore sim lam sel)) = bestIndex sim lam sel rem := rfl
        have := getD_le_firstMaxIdx (rem.map (mmrScore sim lam sel))
          (bestIndex sim lam sel rem + 1 + j) (by simpa using hjlen)
        rw [hbi] at this
        rwa [hj', hval] at this
      have hdecomp : rem
          = rem.take (bestIndex sim lam sel rem)
            ++ rem[bestIndex sim lam sel rem] :: rem.drop (bestIndex sim lam sel rem + 1) := by
        conv_lhs => rw [← List.take_append_drop (bestIndex sim lam sel rem) rem]
        rw [List.drop_eq_getElem_cons hidx]
      have herase : rem.eraseIdx (bestIndex sim lam sel rem)
          = rem.take (bestIndex sim lam sel rem) ++ rem.drop (bestIndex sim lam sel rem + 1) :=
        List.eraseIdx_eq_take_drop_succ rem _
      have heraselen : (rem.eraseIdx (bestIndex sim lam sel rem)).length + 1 = rem.length :=
        List.length_eraseIdx_add_one hidx
      have hfuel : (rem.eraseIdx (bestIndex sim lam sel rem)).length ≤ fuel := by omega
      have hrec := ih (sel ++ [rem[bestIndex sim lam sel rem]])
        (rem.eraseIdx (bestIndex sim lam sel rem)) hfuel
      have hout : mmrLoop sim lam (K : ℚ) (fuel + 1) sel rem
          = mmrLoop sim lam (K : ℚ) fuel (sel ++ [rem[bestIndex sim lam sel rem]])
              (rem.eraseIdx (bestIndex sim lam sel rem)) := by
        rw [mmrLoop, if_pos ⟨hlt, hne⟩]
        show mmrLoop sim lam (K : ℚ) fuel
            (sel ++ [rem.getD (bestIndex sim lam sel rem) default])
            (rem.eraseIdx (bestIndex sim lam sel rem)) = _
        rw [hgetD]
      rw [hout]
      generalize hO : mmrLoop sim lam (K : ℚ) fuel (sel ++ [rem[bestIndex sim lam sel rem]])
        (rem.eraseIdx (bestIndex sim lam sel rem)) = out at hrec ⊢
      rw [herase] at hrec
      have main := MMRRun.step sel (rem.take (bestIndex sim lam sel rem))
        (rem.drop (bestIndex sim lam sel rem + 1)) rem[bestIndex sim lam sel rem] out
        hltN hstrict hmax hrec
      rwa [← hdecomp] at main
    · have heq : mmrLoop sim lam (K : ℚ) (fuel + 1) sel rem = sel := by
        rw [mmrLoop, if_neg hcond]
      rw [heq]
      rcases not_and_or.mp hcond with h | h
      · exact MMRRun.done sel rem (Or.inl (by exact_mod_cast le_of_not_lt h))
      · exact MMRRun.done sel rem (Or.inr (not_not.mp h))

/-- The loop only ever appends to the selected list. -/
theorem mmrLoop_append (sim : List ℚ → List ℚ → ℚ) (lam maxResults : ℚ) :
    ∀ (fuel : ℕ) (selected remaining : List Scored),
      ∃ t, mmrLoop sim lam maxResults fuel selected remaining = selected ++ t := by
  intro fuel
  induction fuel with
  | zero =>
    intro sel rem
    exact ⟨[], by simp [mmrLoop]⟩
  | succ fuel ih =>
    intro sel rem
    by_cases hcond : ((sel.length : ℚ) < maxResults ∧ rem ≠ [])
    · obtain ⟨t, ht⟩ := ih (sel ++ [rem.getD (bestIndex sim lam sel rem) default])
        (rem.eraseIdx (bestIndex sim lam sel rem))
      refine ⟨rem.getD (bestIndex sim lam sel rem) default :: t, ?_⟩
      rw [mmrLoop, if_pos hcond, ht]
      simp
    · exact ⟨[], by rw [mmrLoop, if_neg hcond]; simp⟩

/-! ## Consequences for `mmrDiversification` -/

theorem mmrDiversification_of_length_le (sim : List ℚ → List ℚ → ℚ) (results : List Scored)
    (q : List ℚ) (lam maxResults : ℚ) (h : (results.length : ℚ) ≤ maxResults) :
    mmrDiversification sim results q lam maxResults = results := by
  rw [mmrDiversification.eq_def, if_pos h]

theorem mmrDiversification_length (sim : List ℚ → List ℚ → ℚ) (results : List Scored)
    (q : List ℚ) (lam : ℚ) (K : ℕ) (hK : 1 ≤ K) :
    (mmrDiversification sim results q lam (K : ℚ)).length = min K results.length := by
  rw [mmrDiversification.eq_def]
  by_cases hle : ((results.length : ℚ) ≤ (K : ℚ))
  · rw [if_pos hle]
    have h : results.length ≤ K := by exact_mod_cast hle
    omega
  · rw [if_neg hle]
    have hgt : K < results.length := by
      have := lt_of_not_le hle
      exact_mod_cast this
    cases results with
    | nil => simp at hgt
    | cons r rest =>
      show (mmrLoop sim lam (K : ℚ) rest.length [r] rest).length = min K (r :: rest).length
      rw [mmrLoop_length sim lam K rest.length [r] rest le_rfl]
      simp only [List.length_singleton, List.length_cons, List.length_nil]
      omega

/-! ## Filter-stage membership lemmas -/

theorem yearTruthy_ne_none {y : Option ℤ} (h : yearTruthy y = true) : y ≠ none := by
  cases y with
  | none => simp [yearTruthy] at h
  | some v => simp

theorem includeStage_sublist (l : List Paper) (inc? : Option (List String)) :
    List.Sublist (includeStage l inc?) l := by
  rcases inc? with _ | inc
  · exact List.Sublist.refl l
  · simp only [includeStage]
    split
    · exact List.filter_sublist l
    · exact List.Sublist.refl l

theorem excludeStage_sublist (l : List Paper) (exc? : Option (List String)) :
    List.Sublist (excludeStage l exc?) l := by
  rcases exc? with _ | exc
  · exact List.Sublist.refl l
  · simp only [excludeStage]
    split
    · exact List.filter_sublist l
    · exact List.Sublist.refl l

theorem keywordStage_sublist (l : List Paper) (kw? : Option KeywordFilter) :
    List.Sublist (keywordStage l kw?) l := by
  rcases kw? with _ | kw
  · exact List.Sublist.refl l
  · exact List.Sublist.trans (excludeStage_sublist _ _) (includeStage_sublist _ _)

theorem docIdsStage_sublist (l : List Paper) (ids? : Option (List String)) :
    List.Sublist (docIdsStage l ids?) l := by
  rcases ids? with _ | ids
  · exact List.Sublist.refl l
  · simp only [docIdsStage]
    split
    · exact List.filter_sublist l
    · exact List.Sublist.refl l

theorem year_truthy_of_mem_yearMinStage_some {papers : List Paper} {mn : ℤ} {p : Paper}
    (h : p ∈ yearMinStage papers (some mn)) : yearTruthy p.year = true := by
  simp only [yearMinStage] at h
  exact Bool.and_elim_left (List.mem_filter.mp h).2

theorem year_truthy_of_mem_yearMaxStage_some {l : List Paper} {mx : ℤ} {p : Paper}
    (h : p ∈ yearMaxStage l (some mx)) : yearTruthy p.year = true := by
  simp only [yearMaxStage] at h
  exact Bool.and_elim_left (List.mem_filter.mp h).2

theorem year_isSome_of_mem_yearStage {papers : List Paper} {yr : YearRange} {p : Paper}
    (hb : yr.min ≠ none ∨ yr.max ≠ none) (h : p ∈ yearStage papers (some yr)) :
    p.year ≠ none := by
  obtain ⟨mno, mxo⟩ := yr
  simp only [yearStage] at h
  rcases mxo with _ | mx
  · rcases mno with _ | mn
    · rcases hb with hb | hb <;> simp at hb
    · exact yearTruthy_ne_none (year_truthy_of_mem_yearMinStage_some h)
  · exact yearTruthy_ne_none (year_truthy_of_mem_yearMaxStage_some h)

/-! ## Sortedness of the descending sort -/

instance : IsTotal Scored fun a b => b.score ≤ a.score :=
  ⟨fun a b => le_total b.score a.score⟩

instance : IsTrans Scored fun a b => b.score ≤ a.score :=
  ⟨fun _ _ _ h₁ h₂ => le_trans h₂ h₁⟩

theorem sortByScoreDesc_sorted (l : List Scored) :
    List.Sorted (fun a b => b.score ≤ a.score) (sortByScoreDesc l) :=
  List.sorted_insertionSort _ l

theorem sortByScoreDesc_length (l : List Scored) : (sortByScoreDesc l).length = l.length :=
  List.length_insertionSort _ l

/-! ## Concrete fixtures for witnesses and counterexamples -/

/-- A scored candidate with embedding `[1]` and score `3`. -/
def exScoredA : Scored := ⟨"a", "A", none, none, "a1", "", [1], 3⟩

/-- A scored candidate with embedding `[0]` (zero norm) and score `2`. -/
def exScoredB : Scored := ⟨"b", "B", none, none, "b1", "", [0], 2⟩

/-- A scored candidate with embedding `[-1]` (anti-parallel to
`exScoredA`) and score `1`. -/
def exScoredC : Scored := ⟨"c", "C", none, none, "c1", "", [-1], 1⟩

/-- A well-formed 384-dimensional query vector. -/
def exQuery : List ℚ := List.replicate 384 0

def exPaper1 : Paper := ⟨"d1", "Title One", some 2020, some "u1", "c1", "alpha text", [1]⟩

def exPaper2 : Paper := ⟨"d2", "Title Two", some 2019, none, "c2", "beta text", [0]⟩

def exPaperNoYear : Paper := ⟨"d3", "Title Three", none, none, "c3", "gamma text", [1]⟩

/-- The module cache right after a cold start. -/
def emptyCache : CacheState := ⟨none, none⟩

/-! ## Claim theorems -/

/-- C5: for every query vector, filtered candidate list and result
bound K in the contract range [1,10], the Ranker's output length equals
`min(K, filtered_set_size)`; when the filtered set has at most K
elements, the output is exactly the full candidate list sorted
descending by score, unchanged by diversification. -/
theorem claim5_ranker_length (sim : List ℚ → List ℚ → ℚ) (q : List ℚ)
    (filtered : List Paper) (K : ℕ) (hK : 1 ≤ K) (hK10 : K ≤ 10) :
    (scoreAndRank sim q filtered (K : ℚ)).length = min K filtered.length ∧
    (filtered.length ≤ K →
      scoreAndRank sim q filtered (K : ℚ) = sortByScoreDesc (filtered.map (toScored sim q)) ∧
      List.Sorted (fun a b => b.score ≤ a.score) (scoreAndRank sim q filtered (K : ℚ))) := by
  have hlen : (sortByScoreDesc (filtered.map (toScored sim q))).length = filtered.length := by
    rw [sortByScoreDesc_length, List.length_map]
  constructor
  · rw [scoreAndRank, mmrDiversification_length sim _ q _ K hK, hlen]
  · intro hsmall
    have hle : ((sortByScoreDesc (filtered.map (toScored sim q))).length : ℚ) ≤ (K : ℚ) := by
      rw [hlen]
      exact_mod_cast hsmall
    have hunch : scoreAndRank sim q filtered (K : ℚ)
        = sortByScoreDesc (filtered.map (toScored sim q)) := by
      rw [scoreAndRank]
      exact mmrDiversification_of_length_le _ _ _ _ _ hle
    exact ⟨hunch, hunch ▸ sortByScoreDesc_sorted _⟩

/-- Witness for C5 at a concrete instance (K = 2, two candidates). -/
theorem claim5_witness :
    (1 ≤ 2 ∧ 2 ≤ 10) ∧
      ((scoreAndRank cosineSimilarity1 exQuery [exPaper1, exPaper2] ((2 : ℕ) : ℚ)).length
          = min 2 [exPaper1, exPaper2].length ∧
        ([exPaper1, exPaper2].length ≤ 2 →
          scoreAndRank cosineSimilarity1 exQuery [exPaper1, exPaper2] ((2 : ℕ) : ℚ)
              = sortByScoreDesc ([exPaper1, exPaper2].map (toScored cosineSimilarity1 exQuery)) ∧
          List.Sorted (fun a b => b.score ≤ a.score)
            (scoreAndRank cosineSimilarity1 exQuery [exPaper1, exPaper2] ((2 : ℕ) : ℚ)))) :=
  ⟨⟨by decide, by decide⟩,
    claim5_ranker_length cosineSimilarity1 exQuery [exPaper1, exPaper2] 2 (by decide) (by decide)⟩

/-- C1 (amended): for every filtered candidate list sorted descending
by score with more than K ≥ 1 elements, the greedy MMR selection starts
with the single top-scored candidate (the head, whose score bounds
every candidate), and each subsequent iteration selects, among the
remaining candidates, the first one maximising
`λ * relevance − (1 − λ) * max(0, max_similarity_to_any_selected)` —
the code's similarity term is clamped below at 0 — with ties broken in
favour of the first candidate encountered (`MMRRun` expresses exactly
this greedy rule). -/
theorem claim1_mmr_greedy_selection (sim : List ℚ → List ℚ → ℚ) (lam : ℚ) (q : List ℚ)
    (K : ℕ) (hK : 1 ≤ K) (results : List Scored) (hlen : K < results.length)
    (hsorted : List.Sorted (fun a b => b.score ≤ a.score) results) :
    ∃ hd tl, results = hd :: tl ∧
      (∀ y ∈ results, y.score ≤ hd.score) ∧
      (mmrDiversification sim results q lam (K : ℚ)).head? = some hd ∧
      MMRRun sim lam K [hd] tl (mmrDiversification sim results q lam (K : ℚ)) := by
  cases results with
  | nil => simp at hlen
  | cons hd tl =>
    have hnle : ¬(((hd :: tl).length : ℚ) ≤ (K : ℚ)) := by
      push_neg
      exact_mod_cast hlen
    refine ⟨hd, tl, rfl, ?_, ?_, ?_⟩
    · intro y hy
      rcases List.mem_cons.mp hy with h | h
      · exact le_of_eq (congrArg Scored.score h)
      · exact List.rel_of_sorted_cons hsorted y h
    · rw [mmrDiversification.eq_def, if_neg hnle]
      show (mmrLoop sim lam (K : ℚ) tl.length [hd] tl).head? = some hd
      obtain ⟨t, ht⟩ := mmrLoop_append sim lam (K : ℚ) tl.length [hd] tl
      rw [ht]
      simp
    · rw [mmrDiversification.eq_def, if_neg hnle]
      show MMRRun sim lam K [hd] tl (mmrLoop sim lam (K : ℚ) tl.length [hd] tl)
      exact mmrLoop_run sim lam K tl.length [hd] tl le_rfl

/-- Witness for C1 (amended) at a concrete instance (K = 1, two sorted
candidates). -/
theorem claim1_witness :
    (1 ≤ 1 ∧ 1 < [exScoredA, exScoredB].length ∧
      List.Sorted (fun a b => b.score ≤ a.score) [exScoredA, exScoredB]) ∧
    (∃ hd tl, [exScoredA, exScoredB] = hd :: tl ∧
      (∀ y ∈ [exScoredA, exScoredB], y.score ≤ hd.score) ∧
      (mmrDiversification cosineSimilarity1 [exScoredA, exScoredB] [] (3/10)
          ((1 : ℕ) : ℚ)).head? = some hd ∧
      MMRRun cosineSimilarity1 (3/10) 1 [hd] tl
        (mmrDiversification cosineSimilarity1 [exScoredA, exScoredB] [] (3/10) ((1 : ℕ) : ℚ))) :=
  ⟨⟨by decide, by decide, by decide⟩,
    claim1_mmr_greedy_selection cosineSimilarity1 (3/10) [] 1 (by decide)
      [exScoredA, exScoredB] (by decide) (by decide)⟩

/-- C1 counterexample: on the descending-sorted candidate list
`[exScoredA, exScoredB, exScoredC]` with K = 2 and λ = 0.3, the code
selects `exScoredB` second, although `exScoredC` has the strictly
higher value of the claim's unclamped
`mmr_score = λ * relevance − (1 − λ) * max_similarity_to_any_selected`
(the cosine between `exScoredC` and the selected `exScoredA` is −1, and
the code clamps it to 0) — so the selection does not maximise the
claimed objective. -/
theorem claim1_counterexample :
    List.Sorted (fun a b => b.score ≤ a.score) [exScoredA, exScoredB, exScoredC] ∧
    mmrDiversification cosineSimilarity1 [exScoredA, exScoredB, exScoredC] [] (3/10) 2
      = [exScoredA, exScoredB] ∧
    specMmrScore cosineSimilarity1 (3/10) [exScoredA] exScoredB
      < specMmrScore cosineSimilarity1 (3/10) [exScoredA] exScoredC := by
  refine ⟨by decide, ?_, ?_⟩
  · norm_num [mmrDiversification, mmrLoop, bestIndex, firstMaxIdx, mmrScore, maxSimToSelected,
      cosineSimilarity1, exScoredA, exScoredB, exScoredC, List.getD, List.eraseIdx]
    decide
  · norm_num [specMmrScore, specMaxSim, cosineSimilarity1, exScoredA, exScoredB, exScoredC]

/-- C4 (amended): whenever the filter specification includes a year
block carrying at least one bound (`min` or `max`), every record whose
`year` field is absent is excluded from the filter engine's output. -/
theorem claim4_year_filter_excludes_absent (papers : List Paper) (f : Filter) (yr : YearRange)
    (hy : f.year = some yr) (hb : yr.min ≠ none ∨ yr.max ≠ none) :
    ∀ p ∈ applyFilters papers (some f), p.year ≠ none := by
  intro p hp
  simp only [applyFilters, hy] at hp
  have h1 : p ∈ yearStage papers (some yr) :=
    (keywordStage_sublist _ _).subset ((docIdsStage_sublist _ _).subset hp)
  exact year_isSome_of_mem_yearStage hb h1

/-- Witness for C4 (amended): a min-bounded year filter removes the
record without a year. -/
theorem claim4_witness :
    (({ year := some { min := some 1990, max := none }, keywords := none,
          doc_ids := none } : Filter).year = some { min := some 1990, max := none } ∧
      ((some (1990 : ℤ) ≠ none ∨ (none : Option ℤ) ≠ none))) ∧
    ∀ p ∈ applyFilters [exPaper1, exPaperNoYear]
        (some { year := some { min := some 1990, max := none }, keywords := none,
                doc_ids := none }),
      p.year ≠ none :=
  ⟨⟨rfl, by decide⟩,
    claim4_year_filter_excludes_absent [exPaper1, exPaperNoYear] _ _ rfl (by decide)⟩

/-- C4 counterexample: the year block can be present yet empty
(`{year: {}}`, no bound); it is truthy, but neither bound branch runs,
so a record with no `year` survives the filter — the claim's "every
record whose year is absent is excluded whenever a year filter block is
included" fails. -/
theorem claim4_counterexample :
    exPaperNoYear.year = none ∧
    exPaperNoYear ∈ applyFilters [exPaperNoYear]
      (some { year := some { min := none, max := none }, keywords := none, doc_ids := none }) := by
  decide

/-- C8: on every call, a fresh-enough cached collection (cache and
truthy timestamp present, age under the 5-minute threshold) is returned
with the state untouched, for every backing-store outcome — storage is
not consulted; and when a reload is attempted (the freshness guard
fails) and the store is unreadable or malformed, the call fails with
the load error, the cached collection and timestamp are unchanged, and
the error is the caller's result — no stale-data fallback. -/
theorem claim8_cache_fresh_and_failure :
    (∀ (st : CacheState) (now : ℤ) (store : Except String (List Paper))
        (c : List Paper) (t : ℤ),
      st.papersCache = some c → st.cacheTimestamp = some t → t ≠ 0 →
      now - t < CACHE_DURATION → loadPapers st now store = (Except.ok c, st)) ∧
    (∀ (st : CacheState) (now : ℤ) (e : String), cacheFresh st now = false →
      loadPapers st now (Except.error e) = (Except.error "Failed to load papers data", st)) := by
  constructor
  · intro st now store c t hc ht ht0 hfresh
    have hf : cacheFresh st now = true := by
      simp [cacheFresh, hc, ht, tsTruthy, ht0, hfresh]
    simp [loadPapers, hf, hc]
  · intro st now e hf
    simp [loadPapers, hf]

/-- Witness for C8: a fresh cache survives a broken store, and a cold
cache with a broken store yields the load error. -/
theorem claim8_witness :
    ((⟨some [exPaper1], some 5⟩ : CacheState).papersCache = some [exPaper1] ∧
      (⟨some [exPaper1], some 5⟩ : CacheState).cacheTimestamp = some 5 ∧
      (5 : ℤ) ≠ 0 ∧ (6 : ℤ) - 5 < CACHE_DURATION ∧
      loadPapers ⟨some [exPaper1], some 5⟩ 6 (Except.error "boom")
        = (Except.ok [exPaper1], ⟨some [exPaper1], some 5⟩)) ∧
    (cacheFresh emptyCache 1 = false ∧
      loadPapers emptyCache 1 (Except.error "boom")
        = (Except.error "Failed to load papers data", emptyCache)) :=
  ⟨⟨rfl, rfl, by decide, by decide,
      claim8_cache_fresh_and_failure.1 ⟨some [exPaper1], some 5⟩ 6 (Except.error "boom")
        [exPaper1] 5 rfl rfl (by decide) (by decide)⟩,
    ⟨by decide,
      claim8_cache_fresh_and_failure.2 emptyCache 1 "boom" (by decide)⟩⟩

/-- A request carrying a well-formed query vector and an empty filter
object (`filter: {}`). -/
def reqEmptyFilter : Request :=
  ⟨some exQuery, none, some { year := none, keywords := none, doc_ids := none }⟩

/-- C10: `applyFilters` with a present-but-empty filter object returns
the corpus unchanged, while `filter_applied` reports only the presence
of the filter argument: every successful response to a request that
supplied a filter carries `filter_applied = true`. -/
theorem claim10_filter_applied_flag :
    (∀ papers : List Paper,
      applyFilters papers (some { year := none, keywords := none, doc_ids := none }) = papers) ∧
    (∀ (sim : List ℚ → List ℚ → ℚ) (req : Request) (st : CacheState) (now : ℤ)
        (store : Except String (List Paper)) (f : Filter),
      req.filter = some f → (POST sim req st now store).error = none →
      (POST sim req st now store).metadata.filter_applied = some true) := by
  constructor
  · intro papers
    rfl
  · intro sim req st now store f hf herr
    cases hval : validateInput req.queryEmbedding (req.topK.getD 5) req.filter with
    | some msg =>
      exfalso
      have h : (POST sim req st now store).error = some msg := by
        simp [POST, hval, errorResponse]
      rw [h] at herr
      exact Option.some_ne_none msg herr
    | none =>
      cases hload : (loadPapers st now store).1 with
      | error msg =>
        exfalso
        have h : (POST sim req st now store).error = some msg := by
          simp [POST, hval, hload, errorResponse]
        rw [h] at herr
        exact Option.some_ne_none msg herr
      | ok papers =>
        by_cases hemp : (applyFilters papers req.filter).length = 0
        · have h : (POST sim req st now store).metadata.filter_applied
              = some req.filter.isSome := by
            simp [POST, hval, hload, hemp]
          rw [h, hf]
          rfl
        · have h : (POST sim req st now store).metadata.filter_applied
              = some req.filter.isSome := by
            simp [POST, hval, hload, hemp]
          rw [h, hf]
          rfl

set_option maxRecDepth 10000 in
/-- Witness for C10: an empty filter object leaves the corpus intact
and still sets `filter_applied = true` on a successful response. -/
theorem claim10_witness :
    applyFilters [] (some { year := none, keywords := none, doc_ids := none }) = [] ∧
    (reqEmptyFilter.filter = some { year := none, keywords := none, doc_ids := none } ∧
      (POST cosineSimilarity1 reqEmptyFilter emptyCache 1 (Except.ok [exPaper1])).error = none ∧
      (POST cosineSimilarity1 reqEmptyFilter emptyCache 1
          (Except.ok [exPaper1])).metadata.filter_applied = some true) :=
  ⟨claim10_filter_applied_flag.1 [],
    ⟨rfl, by decide,
      claim10_filter_applied_flag.2 cosineSimilarity1 reqEmptyFilter emptyCache 1
        (Except.ok [exPaper1]) _ rfl (by decide)⟩⟩

/-- A plain valid request: well-formed query vector, no `topK`, no
filter. -/
def reqPlain : Request := ⟨some exQuery, none, none⟩

/-- A valid request whose year filter (2020–2021) matches nothing in a
corpus of 2019 papers. -/
def reqYearNoMatch : Request :=
  ⟨some exQuery, none,
    some { year := some { min := some 2020, max := some 2021 }, keywords := none,
           doc_ids := none }⟩

/-- A request that supplies `topK = 0`. -/
def reqTopKZero : Request := ⟨some exQuery, some 0, none⟩

/-- C2 (amended): every successful request yields status 200 with no
error; when the filtered set is nonempty the metadata carries all five
fields (total corpus size, filtered-set size, returned count, whether a
filter was applied, and MMR engagement), but when the filtered set is
empty the metadata carries only total_chunks, filtered_chunks = 0 and
filter_applied, omitting returned_chunks and mmr_diversification. -/
theorem claim2_metadata_fields (sim : List ℚ → List ℚ → ℚ) (req : Request) (st : CacheState)
    (now : ℤ) (store : Except String (List Paper)) (papers : List Paper)
    (hv : validateInput req.queryEmbedding (req.topK.getD 5) req.filter = none)
    (hl : (loadPapers st now store).1 = Except.ok papers) :
    ((POST sim req st now store).status = 200 ∧ (POST sim req st now store).error = none) ∧
    (applyFilters papers req.filter ≠ [] →
      (POST sim req st now store).metadata
        = { total_chunks := some papers.length,
            filtered_chunks := some (applyFilters papers req.filter).length,
            returned_chunks := some (POST sim req st now store).results.length,
            filter_applied := some req.filter.isSome,
            mmr_diversification := some true,
            error := none }) ∧
    (applyFilters papers req.filter = [] →
      (POST sim req st now store).metadata
        = { total_chunks := some papers.length,
            filtered_chunks := some 0,
            returned_chunks := none,
            filter_applied := some req.filter.isSome,
            mmr_diversification := none,
            error := none }) := by
  by_cases hemp : (applyFilters papers req.filter).length = 0
  · have hnil : applyFilters papers req.filter = [] := List.eq_nil_of_length_eq_zero hemp
    have hPOST : POST sim req st now store
        = { status := 200, error := none, results := [],
            metadata := { total_chunks := some papers.length, filtered_chunks := some 0,
                          filter_applied := some req.filter.isSome } } := by
      simp [POST, hv, hl, hemp]
    refine ⟨⟨by rw [hPOST], by rw [hPOST]⟩, ?_, ?_⟩
    · intro hne
      exact absurd hnil hne
    · intro _
      rw [hPOST]
  · refine ⟨⟨?_, ?_⟩, ?_, ?_⟩
    · simp [POST, hv, hl, hemp]
    · simp [POST, hv, hl, hemp]
    · intro _
      simp [POST, hv, hl, hemp]
    · intro hnil
      exact absurd (by rw [hnil]; rfl) hemp

set_option maxRecDepth 10000 in
/-- Witness for C2 (amended) on a plain request against a one-record
corpus. -/
theorem claim2_witness :
    (validateInput reqPlain.queryEmbedding (reqPlain.topK.getD 5) reqPlain.filter = none ∧
      (loadPapers emptyCache 1 (Except.ok [exPaper1])).1 = Except.ok [exPaper1]) ∧
    (((POST cosineSimilarity1 reqPlain emptyCache 1 (Except.ok [exPaper1])).status = 200 ∧
      (POST cosineSimilarity1 reqPlain emptyCache 1 (Except.ok [exPaper1])).error = none) ∧
    (applyFilters [exPaper1] reqPlain.filter ≠ [] →
      (POST cosineSimilarity1 reqPlain emptyCache 1 (Except.ok [exPaper1])).metadata
        = { total_chunks := some [exPaper1].length,
            filtered_chunks := some (applyFilters [exPaper1] reqPlain.filter).length,
            returned_chunks := some
              (POST cosineSimilarity1 reqPlain emptyCache 1 (Except.ok [exPaper1])).results.length,
            filter_applied := some reqPlain.filter.isSome,
            mmr_diversification := some true,
            error := none }) ∧
    (applyFilters [exPaper1] reqPlain.filter = [] →
      (POST cosineSimilarity1 reqPlain emptyCache 1 (Except.ok [exPaper1])).metadata
        = { total_chunks := some [exPaper1].length,
            filtered_chunks := some 0,
            returned_chunks := none,
            filter_applied := some reqPlain.filter.isSome,
            mmr_diversification := none,
            error := none })) :=
  ⟨⟨by decide, by rfl⟩,
    claim2_metadata_fields cosineSimilarity1 reqPlain emptyCache 1 (Except.ok [exPaper1])
      [exPaper1] (by decide) (by rfl)⟩

set_option maxRecDepth 10000 in
/-- C2 counterexample: a successful (error-free, status-200) response
whose filtered set is empty carries no `returned_chunks` and no
`mmr_diversification` key — the claim that every successful response
reports the returned count and MMR engagement fails. -/
theorem claim2_counterexample :
    (POST cosineSimilarity1 reqYearNoMatch emptyCache 1 (Except.ok [exPaper2])).error = none ∧
    (POST cosineSimilarity1 reqYearNoMatch emptyCache 1 (Except.ok [exPaper2])).status = 200 ∧
    (POST cosineSimilarity1 reqYearNoMatch emptyCache 1
        (Except.ok [exPaper2])).metadata.returned_chunks = none ∧
    (POST cosineSimilarity1 reqYearNoMatch emptyCache 1
        (Except.ok [exPaper2])).metadata.mmr_diversification = none := by
  decide

/-- C3 (amended): with a well-formed query vector, a given `topK`
passes validation exactly when it is 0 (a falsy value that skips the
check entirely) or any number in [1,10] (integrality is never checked,
so e.g. 2.5 is accepted); every other value — e.g. 15 — is rejected
with the topK validation error as a 400 response, independently of the
cache state and backing store, i.e. before any corpus access. -/
theorem claim3_topk_validation (emb : List ℚ) (h384 : emb.length = 384) (tk : ℚ) :
    (validateInput (some emb) tk none = none ↔ (tk = 0 ∨ (1 ≤ tk ∧ tk ≤ 10))) ∧
    (tk ≠ 0 → (tk < 1 ∨ 10 < tk) →
      ∀ (sim : List ℚ → List ℚ → ℚ) (f : Option Filter) (st : CacheState) (now : ℤ)
        (store : Except String (List Paper)),
      POST sim ⟨some emb, some tk, f⟩ st now store
        = { status := 400,
            error := some "Invalid topK: must be a number between 1 and 10",
            results := [], metadata := { error := some true } }) := by
  have hdim : ¬(emb.length ≠ 384) := by simp [h384]
  constructor
  · simp only [validateInput, if_neg hdim]
    by_cases hc : (tk ≠ 0 ∧ (tk < 1 ∨ 10 < tk))
    · rw [if_pos hc]
      constructor
      · intro h
        exact absurd h (by simp)
      · intro h
        exfalso
        obtain ⟨h0, hr⟩ := hc
        rcases h with h | ⟨h1, h10⟩
        · exact h0 h
        · rcases hr with hr | hr
          · exact absurd h1 (not_le.mpr hr)
          · exact absurd h10 (not_le.mpr hr)
    · rw [if_neg hc]
      constructor
      · intro _
        rcases not_and_or.mp hc with h | h
        · exact Or.inl (not_not.mp h)
        · rcases not_or.mp h with ⟨h1, h2⟩
          exact Or.inr ⟨not_lt.mp h1, not_lt.mp h2⟩
      · intro _
        rfl
  · intro h0 hr sim f st now store
    have hval : validateInput (some emb) tk f
        = some "Invalid topK: must be a number between 1 and 10" := by
      simp only [validateInput, if_neg hdim]
      rw [if_pos ⟨h0, hr⟩]
    have hstat : statusFor "Invalid topK: must be a number between 1 and 10" = 400 := by
      decide
    simp [POST, hval, errorResponse, hstat]

set_option maxRecDepth 10000 in
/-- Witness for C3 (amended), at `topK = 15`. -/
theorem claim3_witness :
    exQuery.length = 384 ∧
    ((validateInput (some exQuery) 15 none = none
        ↔ ((15 : ℚ) = 0 ∨ (1 ≤ (15 : ℚ) ∧ (15 : ℚ) ≤ 10))) ∧
      ((15 : ℚ) ≠ 0 → ((15 : ℚ) < 1 ∨ 10 < (15 : ℚ)) →
        ∀ (sim : List ℚ → List ℚ → ℚ) (f : Option Filter) (st : CacheState) (now : ℤ)
          (store : Except String (List Paper)),
        POST sim ⟨some exQuery, some 15, f⟩ st now store
          = { status := 400,
              error := some "Invalid topK: must be a number between 1 and 10",
              results := [], metadata := { error := some true } })) :=
  ⟨by decide, claim3_topk_validation exQuery (by decide) 15⟩

set_option maxRecDepth 10000 in
/-- C3 counterexample: `topK = 0` is accepted — validation passes, the
endpoint answers 200 with no error (and even returns one result,
because the MMR loop pushes the head before checking the bound) —
although the claim says any topK outside the integers 1..10 is
rejected. -/
theorem claim3_counterexample :
    validateInput (some exQuery) 0 none = none ∧
    (POST cosineSimilarity1 reqTopKZero emptyCache 1 (Except.ok [exPaper1])).status = 200 ∧
    (POST cosineSimilarity1 reqTopKZero emptyCache 1 (Except.ok [exPaper1])).error = none ∧
    (POST cosineSimilarity1 reqTopKZero emptyCache 1
        (Except.ok [exPaper1])).results.length = 1 := by
  decide

/-- The validation message for a wrong-dimension embedding starts with
"Invalid", whatever the reported length is. -/
theorem strIncludes_invalid_dim (r : String) :
    strIncludes ("Invalid embedding dimension: expected 384, got " ++ r) "Invalid" = true := by
  simp only [strIncludes, decide_eq_true_eq]
  refine ⟨[], " embedding dimension: expected 384, got ".toList ++ r.toList, ?_⟩
  have hsplit : ("Invalid embedding dimension: expected 384, got " ++ r).toList
      = "Invalid embedding dimension: expected 384, got ".toList ++ r.toList := by
    simp [String.toList]
  have hconst : "Invalid".toList ++ " embedding dimension: expected 384, got ".toList
      = "Invalid embedding dimension: expected 384, got ".toList := by
    decide
  rw [List.nil_append, ← List.append_assoc, hconst, hsplit]

/-- C6: a request whose query embedding is present but not of dimension
384 is rejected before any corpus access with the dimension validation
error, an empty results list and the 4xx status 400; all backend (load)
errors instead surface as status 500. -/
theorem claim6_validation_vs_backend :
    (∀ (sim : List ℚ → List ℚ → ℚ) (emb : List ℚ) (tk : Option ℚ) (f : Option Filter)
        (st : CacheState) (now : ℤ) (store : Except String (List Paper)),
      emb.length ≠ 384 →
      POST sim ⟨some emb, tk, f⟩ st now store
        = { status := 400,
            error := some ("Invalid embedding dimension: expected 384, got "
              ++ toString emb.length),
            results := [], metadata := { error := some true } }) ∧
    (∀ (sim : List ℚ → List ℚ → ℚ) (req : Request) (st : CacheState) (now : ℤ) (e : String),
      validateInput req.queryEmbedding (req.topK.getD 5) req.filter = none →
      cacheFresh st now = false →
      (POST sim req st now (Except.error e)).status = 500 ∧
      (POST sim req st now (Except.error e)).results = [] ∧
      (POST sim req st now (Except.error e)).error = some "Failed to load papers data") := by
  constructor
  · intro sim emb tk f st now store hdim
    have hval : validateInput (some emb) (tk.getD 5) f
        = some ("Invalid embedding dimension: expected 384, got " ++ toString emb.length) := by
      simp only [validateInput]
      rw [if_pos hdim]
    have hstat : statusFor ("Invalid embedding dimension: expected 384, got "
        ++ toString emb.length) = 400 := by
      simp [statusFor, strIncludes_invalid_dim]
    simp [POST, hval, errorResponse, hstat]
  · intro sim req st now e hv hfresh
    have hl : (loadPapers st now (Except.error e)).1
        = Except.error "Failed to load papers data" := by
      simp [loadPapers, hfresh]
    have hstat : statusFor "Failed to load papers data" = 500 := by decide
    refine ⟨?_, ?_, ?_⟩ <;> simp [POST, hv, hl, errorResponse, hstat]

set_option maxRecDepth 10000 in
/-- Witness for C6: a 300-dimensional query yields the 400 validation
response; a broken store behind a valid request yields a 500. -/
theorem claim6_witness :
    ((List.replicate 300 (0 : ℚ)).length ≠ 384 ∧
      POST cosineSimilarity1 ⟨some (List.replicate 300 (0 : ℚ)), none, none⟩ emptyCache 1
          (Except.ok [exPaper1])
        = { status := 400,
            error := some ("Invalid embedding dimension: expected 384, got "
              ++ toString (List.replicate 300 (0 : ℚ)).length),
            results := [], metadata := { error := some true } }) ∧
    (validateInput reqPlain.queryEmbedding (reqPlain.topK.getD 5) reqPlain.filter = none ∧
      cacheFresh emptyCache 1 = false ∧
      ((POST cosineSimilarity1 reqPlain emptyCache 1 (Except.error "boom")).status = 500 ∧
        (POST cosineSimilarity1 reqPlain emptyCache 1 (Except.error "boom")).results = [] ∧
        (POST cosineSimilarity1 reqPlain emptyCache 1 (Except.error "boom")).error
          = some "Failed to load papers data")) :=
  ⟨⟨by decide,
      claim6_validation_vs_backend.1 cosineSimilarity1 (List.replicate 300 0) none none
        emptyCache 1 (Except.ok [exPaper1]) (by decide)⟩,
    ⟨by decide, by decide,
      claim6_validation_vs_backend.2 cosineSimilarity1 reqPlain emptyCache 1 "boom"
        (by decide) (by decide)⟩⟩

/-- C7: a valid request whose filter matches no corpus record yields a
successful status-200 response with an empty results list and metadata
reporting `filtered_chunks = 0`. -/
theorem claim7_empty_result_success (sim : List ℚ → List ℚ → ℚ) (req : Request)
    (st : CacheState) (now : ℤ) (store : Except String (List Paper)) (papers : List Paper)
    (hv : validateInput req.queryEmbedding (req.topK.getD 5) req.filter = none)
    (hl : (loadPapers st now store).1 = Except.ok papers)
    (he : applyFilters papers req.filter = []) :
    POST sim req st now store
      = { status := 200, error := none, results := [],
          metadata := { total_chunks := some papers.length, filtered_chunks := some 0,
                        filter_applied := some req.filter.isSome } } := by
  have hlen : (applyFilters papers req.filter).length = 0 := by
    rw [he]
    rfl
  simp [POST, hv, hl, hlen]

set_option maxRecDepth 10000 in
/-- Witness for C7: a 2020–2021 year filter over a corpus whose only
chunk is from 2019. -/
theorem claim7_witness :
    (validateInput reqYearNoMatch.queryEmbedding (reqYearNoMatch.topK.getD 5)
        reqYearNoMatch.filter = none ∧
      (loadPapers emptyCache 1 (Except.ok [exPaper2])).1 = Except.ok [exPaper2] ∧
      applyFilters [exPaper2] reqYearNoMatch.filter = []) ∧
    POST cosineSimilarity1 reqYearNoMatch emptyCache 1 (Except.ok [exPaper2])
      = { status := 200, error := none, results := [],
          metadata := { total_chunks := some [exPaper2].length, filtered_chunks := some 0,
                        filter_applied := some reqYearNoMatch.filter.isSome } } :=
  ⟨⟨by decide, by rfl, by decide⟩,
    claim7_empty_result_success cosineSimilarity1 reqYearNoMatch emptyCache 1
      (Except.ok [exPaper2]) [exPaper2] (by decide) (by rfl) (by decide)⟩

/-- C9: stripping the embedding removes only the `embedding` field —
`doc_id`, `doc_title`, `year`, `url`, `chunk_id`, `text` and `score`
are all preserved — and every results list the endpoint returns is the
image of scored candidates under that stripping (so no returned record
carries an embedding: the result type has none). -/
theorem claim9_strip_embedding :
    (∀ c : Scored,
      (stripEmbedding c).doc_id = c.doc_id ∧ (stripEmbedding c).doc_title = c.doc_title ∧
      (stripEmbedding c).year = c.year ∧ (stripEmbedding c).url = c.url ∧
      (stripEmbedding c).chunk_id = c.chunk_id ∧ (stripEmbedding c).text = c.text ∧
      (stripEmbedding c).score = c.score) ∧
    (∀ (sim : List ℚ → List ℚ → ℚ) (req : Request) (st : CacheState) (now : ℤ)
        (store : Except String (List Paper)),
      ∃ cands : List Scored, (POST sim req st now store).results = cands.map stripEmbedding) := by
  constructor
  · intro c
    exact ⟨rfl, rfl, rfl, rfl, rfl, rfl, rfl⟩
  · intro sim req st now store
    cases hval : validateInput req.queryEmbedding (req.topK.getD 5) req.filter with
    | some msg =>
      exact ⟨[], by simp [POST, hval, errorResponse]⟩
    | none =>
      cases hload : (loadPapers st now store).1 with
      | error msg =>
        exact ⟨[], by simp [POST, hval, hload, errorResponse]⟩
      | ok papers =>
        by_cases hemp : (applyFilters papers req.filter).length = 0
        · exact ⟨[], by simp [POST, hval, hload, hemp]⟩
        · refine ⟨scoreAndRank sim (req.queryEmbedding.getD []) (applyFilters papers req.filter)
            (req.topK.getD 5), ?_⟩
          simp [POST, hval, hload, hemp]

end GenAistro
